import Mathlib

/-!
# Verification of the anoverif benchmark and timing-analysis suite

Shallow embedding of the load-generation scheduler and statistics engine in
`advanced_benchmark.py` and `analyze_timing.py`.  Python floats are modelled
as exact rationals (`ℚ`); quantities that pass through `math.sqrt` are
modelled in `ℝ` via `Real.sqrt`.  Fallible paths (exceptions, implicit
`None` returns) are modelled with `Except` and `Option`.
-/

namespace Anoverif

/-- The parsed JSON body of a server reply, as consumed by
`send_request` in `advanced_benchmark.py`: the code reads the keys
`success`, `result` (each defaulting to `False` when absent) and `error`
(absent ⇒ `None`).  Absence of a key is modelled with `Option`. -/
structure ResponseData where
  success : Option Bool
  result : Option Bool
  error : Option String
deriving DecidableEq, Repr

/-- `RequestResult` dataclass of `advanced_benchmark.py` (lines 23-36). -/
structure RequestResult where
  request_id : ℕ
  start_time : ℚ
  end_time : ℚ
  response_time : ℚ
  status_code : ℕ
  success : Bool
  result_value : Bool
  error : Option String
  queue_time : ℚ := 0
  processing_time : ℚ := 0
deriving DecidableEq, Repr

/-- The environment one call of `send_request` runs in: the wall-clock
reading at entry (`time.time()`), the elapsed time until the second
reading, the transport status code, and the transport outcome — either a
parsed JSON body or the exception message `str(e)`. -/
structure ReqEnv where
  start_time : ℚ
  elapsed : ℚ
  status_code : ℕ
  outcome : Except String ResponseData
deriving Repr

/-- `BenchmarkSuite.send_request` (advanced_benchmark.py lines 53-94).
On a reply it copies `success`/`result` (default `False`) and `error`
verbatim from the body; on any exception it returns `success=False`,
`status_code=0`, `error=str(e)`.  Both branches set
`end_time = start_time + elapsed` and `response_time = (end-start)*1000`. -/
def send_request (request_id : ℕ) (env : ReqEnv) : RequestResult :=
  let start_time := env.start_time
  let end_time := env.start_time + env.elapsed
  let response_time := (end_time - start_time) * 1000
  match env.outcome with
  | Except.ok rd =>
      { request_id := request_id
        start_time := start_time
        end_time := end_time
        response_time := response_time
        status_code := env.status_code
        success := rd.success.getD false
        result_value := rd.result.getD false
        error := rd.error }
  | Except.error e =>
      { request_id := request_id
        start_time := start_time
        end_time := end_time
        response_time := response_time
        status_code := 0
        success := false
        result_value := false
        error := some e }

/-- Inter-request delay of `run_ramp_test` (advanced_benchmark.py line 146):
`delay = 1.0 / current_rps if current_rps > 0 else 1.0`. -/
def ramp_delay (current_rps : ℚ) : ℚ :=
  if current_rps > 0 then 1 / current_rps else 1

/-- Interpolated rate of `run_ramp_test` (line 143):
`current_rps = start_rps + (end_rps - start_rps) * progress`. -/
def ramp_current_rps (start_rps end_rps progress : ℚ) : ℚ :=
  start_rps + (end_rps - start_rps) * progress

/-- Inter-request delay of `run_sustained_test` (line 172): `delay = 1.0 / rps`
with no guard on the sign of `rps`.  `rps` is an `int` parameter; `rps = 0`
raises `ZeroDivisionError` in Python, modelled as `none`; any other value
divides, so a negative `rps` yields a negative delay. -/
def sustained_delay (rps : ℤ) : Option ℚ :=
  if rps = 0 then none else some (1 / (rps : ℚ))

/-- `run_burst_test` (lines 96-128), issue structure.  The code runs 5
bursts; burst `b` creates tasks for `i in range(burst_size)` with
`request_id = b * burst_size + i` and `asyncio.gather` returns the burst's
results in task order, appended burst after burst.  The transport
behaviour of each request is the oracle `env`, indexed by request id;
sleeps and printing do not affect the collected results. -/
def run_burst_test (burst_size : ℕ) (env : ℕ → ReqEnv) : List RequestResult :=
  (List.range 5).flatMap fun burst =>
    (List.range burst_size).map fun i =>
      send_request (burst * burst_size + i) (env (burst * burst_size + i))

/-- Python `min` over a list, total with default 0 for the empty list
(Python raises there; every call site below guards non-emptiness). -/
def pyMin : List ℚ → ℚ
  | [] => 0
  | x :: xs => xs.foldl min x

/-- Python `max` over a list, total with default 0 for the empty list. -/
def pyMax : List ℚ → ℚ
  | [] => 0
  | x :: xs => xs.foldl max x

/-- Sample variance, the square of Python's `statistics.stdev`:
sum of squared deviations from the mean divided by `n - 1`. -/
def sample_variance (xs : List ℚ) : ℚ :=
  ((xs.map fun x => (x - xs.sum / xs.length) ^ 2).sum) / ((xs.length : ℚ) - 1)

/-- Population variance: sum of squared deviations from the mean divided
by `n`, as computed inline by `calculate_statistics` and `detect_outliers`
in analyze_timing.py (lines 68, 108-110). -/
def population_variance (xs : List ℚ) : ℚ :=
  ((xs.map fun x => (x - xs.sum / xs.length) ^ 2).sum) / (xs.length : ℚ)

/-- The `std_dev` entry of `analyze_results`' response-time dictionary
(advanced_benchmark.py lines 239-241):
`statistics.stdev(response_times) if len(response_times) > 1 else 0`. -/
noncomputable def analyze_std_dev (response_times : List ℚ) : ℝ :=
  if 1 < response_times.length then Real.sqrt (sample_variance response_times) else 0

/-- The `std_dev` of `calculate_statistics` (analyze_timing.py lines 67-69):
`math.sqrt` of the population variance. -/
noncomputable def calc_std_dev (xs : List ℚ) : ℝ :=
  Real.sqrt (population_variance xs)

/-- The `cv` entry of `calculate_statistics` (line 72):
`std_dev / mean if mean != 0 else 0`. -/
noncomputable def calc_cv (xs : List ℚ) : ℝ :=
  if xs.sum / (xs.length : ℚ) ≠ 0 then calc_std_dev xs / ((xs.sum / (xs.length : ℚ) : ℚ) : ℝ)
  else 0

/-- The `cv` corresponding to `analyze_results`' `std_dev` over `mean`
(the coefficient of variation the benchmark side would report). -/
noncomputable def analyze_cv (xs : List ℚ) : ℝ :=
  analyze_std_dev xs / ((xs.sum / (xs.length : ℚ) : ℚ) : ℝ)

/-- The subset of the statistics dictionary built by `analyze_results`
(advanced_benchmark.py lines 227-245) that the claims reference; the
`std_dev` entry needs `ℝ` and is modelled separately as
`analyze_std_dev`, and the nested `median`/`p95`/`p99`/`timing_analysis`/
`error_analysis` entries are not referenced by any claim. -/
structure AnalyzeStats where
  total_requests : ℕ
  successful_requests : ℕ
  failed_requests : ℕ
  success_rate : ℚ
  rt_min : ℚ
  rt_max : ℚ
  rt_mean : ℚ
deriving DecidableEq, Repr

/-- Return value of `analyze_results`: `{}` for an empty input,
`{"error": "No successful requests"}` when no request succeeded,
otherwise the statistics dictionary. -/
inductive AnalyzeOutcome where
  | empty : AnalyzeOutcome
  | err (msg : String) : AnalyzeOutcome
  | stats (s : AnalyzeStats) : AnalyzeOutcome
deriving DecidableEq, Repr

/-- `analyze_results` (advanced_benchmark.py lines 211-247). -/
def analyze_results (results : List RequestResult) : AnalyzeOutcome :=
  if results = [] then .empty
  else
    let successful := results.filter fun r => r.success
    let failed := results.filter fun r => !r.success
    let response_times := successful.map fun r => r.response_time
    if response_times = [] then .err "No successful requests"
    else .stats
      { total_requests := results.length
        successful_requests := successful.length
        failed_requests := failed.length
        success_rate := (successful.length : ℚ) / (results.length : ℚ) * 100
        rt_min := pyMin response_times
        rt_max := pyMax response_times
        rt_mean := response_times.sum / response_times.length }

/-- The ordinary-least-squares slope computed by `analyze_trend`
(advanced_benchmark.py lines 310-320): regression of the data against
positions `0..n-1` via the closed-form normal equations. -/
def trend_slope (data : List ℚ) : ℚ :=
  let n : ℚ := data.length
  let x : List ℚ := (List.range data.length).map fun i : ℕ => (i : ℚ)
  let sum_x := x.sum
  let sum_y := data.sum
  let sum_xy := (List.zipWith (· * ·) x data).sum
  let sum_x2 := (x.map fun xi => xi * xi).sum
  (n * sum_xy - sum_x * sum_y) / (n * sum_x2 - sum_x * sum_x)

/-- `analyze_trend` (advanced_benchmark.py lines 305-327). -/
def analyze_trend (data : List ℚ) : String :=
  if data.length < 10 then "insufficient_data"
  else if trend_slope data > 0.1 then "increasing"
  else if trend_slope data < -0.1 then "decreasing"
  else "stable"

/-- Python `int()` applied to a float: truncation toward zero. -/
def pyTrunc (x : ℚ) : ℤ :=
  if x < 0 then ⌈x⌉ else ⌊x⌋

/-- The nested `percentile` function of `calculate_statistics`
(analyze_timing.py lines 53-60): fractional index `(len(data)-1)*p/100`,
`lower = int(index)`, `upper = lower + 1`, `weight = index - lower`;
returns `data[-1]` when `upper >= len(data)`, else
`data[lower]*(1-weight) + data[upper]*weight`.  Out-of-range indexing
(impossible for `0 ≤ p ≤ 100` on the non-empty sorted inputs the code
passes) is totalised with default `0`. -/
def percentile (data : List ℚ) (p : ℚ) : ℚ :=
  let index : ℚ := ((data.length : ℚ) - 1) * p / 100
  let lower : ℤ := pyTrunc index
  let upper : ℤ := lower + 1
  let weight : ℚ := index - (lower : ℚ)
  if (data.length : ℤ) ≤ upper then data.getLastD 0
  else data.getD lower.toNat 0 * (1 - weight) + data.getD upper.toNat 0 * weight

/-- Python `sorted` on numbers: sort into non-decreasing order. -/
def pySorted (xs : List ℚ) : List ℚ :=
  xs.mergeSort fun a b => decide (a ≤ b)

/-- Median of `calculate_statistics` (lines 43-47): middle element of the
sorted list for odd `n`, average of the two middle elements for even `n`. -/
def pyMedian (xs : List ℚ) : ℚ :=
  let sorted_times := pySorted xs
  let n := xs.length
  if n % 2 = 1 then sorted_times.getD (n / 2) 0
  else (sorted_times.getD (n / 2 - 1) 0 + sorted_times.getD (n / 2) 0) / 2

/-- Absolute successive differences (`variations` of
`calculate_statistics`, lines 75-77): `|x[i] - x[i-1]|` for `i = 1..n-1`. -/
def variations (xs : List ℚ) : List ℚ :=
  List.zipWith (fun prev cur => |cur - prev|) xs xs.tail

/-- The rational-valued entries of the dictionary returned by
`calculate_statistics` (analyze_timing.py lines 33-98).  The `std_dev`
and `cv` entries go through `math.sqrt` and are modelled separately as
`calc_std_dev` and `calc_cv` over `ℝ`. -/
structure CalcStats where
  n : ℕ
  mean : ℚ
  median : ℚ
  min : ℚ
  max : ℚ
  range : ℚ
  p25 : ℚ
  p75 : ℚ
  p95 : ℚ
  p99 : ℚ
  avg_variation : ℚ
  max_variation : ℚ
  iqr : ℚ
deriving DecidableEq, Repr

/-- `calculate_statistics` (analyze_timing.py lines 33-98), restricted to
its rational-valued entries; the empty-input `{}` short-circuit (line 35)
is modelled by `Option`. -/
def calculate_statistics (response_times : List ℚ) : Option CalcStats :=
  if response_times = [] then none
  else
    let n := response_times.length
    let sorted_times := pySorted response_times
    let mean := response_times.sum / (n : ℚ)
    let p25 := percentile sorted_times 25
    let p75 := percentile sorted_times 75
    let vars := variations response_times
    some
      { n := n
        mean := mean
        median := pyMedian response_times
        min := pyMin response_times
        max := pyMax response_times
        range := pyMax response_times - pyMin response_times
        p25 := p25
        p75 := p75
        p95 := percentile sorted_times 95
        p99 := percentile sorted_times 99
        avg_variation := if vars ≠ [] then vars.sum / (vars.length : ℚ) else 0
        max_variation := if vars ≠ [] then pyMax vars else 0
        iqr := p75 - p25 }

/-- `detect_outliers` of analyze_timing.py (lines 101-131).  An empty
input returns `[]` for every method; `"zscore"` and `"iqr"` return their
outlier triples `(index, value, score)`; any other method string falls
off the end of the Python function, an implicit `None`, modelled as
`none`.  Z-scores go through `math.sqrt`, hence the `ℝ` score column. -/
noncomputable def detect_outliers (response_times : List ℚ) (method : String)
    (threshold : ℚ) : Option (List (ℕ × ℚ × ℝ)) :=
  if response_times = [] then some []
  else if method = "zscore" then
    let mean := response_times.sum / (response_times.length : ℚ)
    let std_dev : ℝ := Real.sqrt (population_variance response_times)
    some (response_times.enum.filterMap fun it =>
      let z : ℝ := if std_dev ≠ 0 then |((it.2 : ℝ)) - ((mean : ℚ) : ℝ)| / std_dev else 0
      if z > (threshold : ℝ) then some (it.1, it.2, z) else none)
  else if method = "iqr" then
    let sorted_times := pySorted response_times
    let n := response_times.length
    let q1 := sorted_times.getD (n / 4) 0
    let q3 := sorted_times.getD (3 * n / 4) 0
    let iqr := q3 - q1
    let lower_bound := q1 - 3 / 2 * iqr
    let upper_bound := q3 + 3 / 2 * iqr
    some ((response_times.enum.filter fun it =>
      it.2 < lower_bound ∨ it.2 > upper_bound).map fun it => (it.1, it.2, (0 : ℝ)))
  else none

/-- `categorize_performance` (analyze_timing.py lines 193-217): pure
mapping from coefficient of variation and average time to
`(consistency, consistency_desc, speed)`. -/
def categorize_performance (cv avg_time : ℚ) : String × String × String :=
  let cons :=
    if cv < 0.1 then ("Excellent", "Very low variation, highly predictable")
    else if cv < 0.25 then ("Good", "Low variation, reasonably predictable")
    else if cv < 0.5 then ("Fair", "Moderate variation, somewhat unpredictable")
    else ("Poor", "High variation, unpredictable performance")
  let speed :=
    if avg_time < 500 then "Fast"
    else if avg_time < 1000 then "Moderate"
    else if avg_time < 2000 then "Slow"
    else "Very Slow"
  (cons.1, cons.2, speed)

/-- One row loaded by `load_timing_data` (analyze_timing.py lines 12-30). -/
structure TimingRecord where
  request_id : ℕ
  response_time_ms : ℚ
  success : Bool
  error : String
deriving DecidableEq, Repr

/-- The fields of the JSON summary built by `generate_comprehensive_report`
(analyze_timing.py lines 432-449) that the claims reference. -/
structure ReportSummary where
  total_requests : ℕ
  successful_requests : ℕ
  failed_requests : ℕ
  success_rate : ℚ
  statistics : Option CalcStats
deriving DecidableEq, Repr

/-- `generate_comprehensive_report` (analyze_timing.py lines 220-459),
data path only: when no request succeeded the function prints
`"❌ No successful requests to analyze"` and returns early (line 235-237),
modelled as `Except.error` carrying that marker; otherwise it computes the
statistics and emits the summary.  Text rendering, outlier/pattern
sub-reports and file output are presentation and are not modelled. -/
def generate_comprehensive_report (data : List TimingRecord) : Except String ReportSummary :=
  let total_requests := data.length
  let successful_requests := data.filter fun d => d.success
  let failed_requests := data.filter fun d => !d.success
  let success_rate : ℚ :=
    if 0 < total_requests then (successful_requests.length : ℚ) / (total_requests : ℚ) * 100
    else 0
  let response_times := successful_requests.map fun d => d.response_time_ms
  if response_times = [] then Except.error "No successful requests to analyze"
  else Except.ok
    { total_requests := total_requests
      successful_requests := successful_requests.length
      failed_requests := failed_requests.length
      success_rate := success_rate
      statistics := calculate_statistics response_times }

/-- The synthetic trend dataset `[100, 110, 120, ..., 100 + 10*(n-1)]`
named by the spec's testable properties. -/
def trend_test_data (n : ℕ) : List ℚ :=
  (List.range n).map fun i : ℕ => 100 + 10 * (i : ℚ)

/-- Proof-side restatement of `percentile`'s interpolation core as a
function of the fractional index `x` (with `pyTrunc` already reduced to
`Int.floor`, valid for the non-negative indices that `0 ≤ p` yields). -/
def interpAt (d : List ℚ) (x : ℚ) : ℚ :=
  if (d.length : ℤ) ≤ ⌊x⌋ + 1 then d.getLastD 0
  else d.getD ⌊x⌋.toNat 0 * (1 - (x - (⌊x⌋ : ℚ))) + d.getD (⌊x⌋ + 1).toNat 0 * (x - (⌊x⌋ : ℚ))

/-! ## Theorems -/

/-- C1 (counterexample): `send_request` does not maintain
"`error` is set iff `success` is false".  A server reply whose body is
`{"success": false}` (no `error` key) yields a result with
`success = false` and `error = None`, refuting the claimed equivalence. -/
theorem C1_counterexample :
    ¬ (((send_request 0 ⟨0, 1, 200, Except.ok ⟨some false, none, none⟩⟩).error ≠ none) ↔
       ((send_request 0 ⟨0, 1, 200, Except.ok ⟨some false, none, none⟩⟩).success = false)) := by
  decide

/-- C1 (amended): on a transport failure `send_request` always sets
`error` (non-null) and `success = false`; on a server reply it copies
`success` and `error` verbatim from the body, so the equivalence
"`error` set iff `success` false" holds exactly when the reply body
itself satisfies it. -/
theorem C1_error_iff_failure_amended (request_id : ℕ) (env : ReqEnv) :
    ((∃ e, env.outcome = Except.error e) →
      (send_request request_id env).error ≠ none ∧
      (send_request request_id env).success = false) ∧
    (∀ rd, env.outcome = Except.ok rd →
      ((rd.error ≠ none ↔ rd.success.getD false = false) →
        ((send_request request_id env).error ≠ none ↔
         (send_request request_id env).success = false))) := by
  obtain ⟨s, el, st, o⟩ := env
  cases o with
  | ok rd => exact ⟨fun ⟨e, he⟩ => by simp at he, fun rd' hrd' h => by
      simp only [Except.ok.injEq] at hrd'
      subst hrd'
      simpa [send_request] using h⟩
  | error e => exact ⟨fun _ => by simp [send_request], fun rd' hrd' => by simp at hrd'⟩

/-- C1 (witness for the amended theorem, at a concrete transport
failure). -/
theorem C1_error_iff_failure_amended_witness :
    (send_request 1 ⟨0, 1, 0, Except.error "timeout"⟩).error ≠ none ∧
    (send_request 1 ⟨0, 1, 0, Except.error "timeout"⟩).success = false :=
  (C1_error_iff_failure_amended 1 ⟨0, 1, 0, Except.error "timeout"⟩).1 ⟨"timeout", rfl⟩

/-- C2 (counterexample): the sustained loop does not substitute the
fallback delay for a non-positive rate: `rps = 0` divides by zero
(`ZeroDivisionError`, no delay value at all) and `rps = -1` produces the
negative delay `-1`, not `1`. -/
theorem C2_counterexample :
    sustained_delay 0 = none ∧ sustained_delay 0 ≠ some 1 ∧
    sustained_delay (-1) = some (-1) := by
  refine ⟨rfl, by simp [sustained_delay], ?_⟩
  norm_num [sustained_delay]

/-- C2 (amended): only the ramp loop guards against a non-positive rate,
substituting the fallback delay `1.0` when `current_rps ≤ 0`; the
sustained loop computes `1.0 / rps` unguarded, so `rps = 0` raises a
`ZeroDivisionError` and a negative `rps` yields a negative delay. -/
theorem C2_delay_guard_amended :
    (∀ r : ℚ, r ≤ 0 → ramp_delay r = 1) ∧
    (∀ r : ℚ, 0 < r → ramp_delay r = 1 / r) ∧
    sustained_delay 0 = none ∧
    (∀ rps : ℤ, rps < 0 →
      sustained_delay rps = some (1 / (rps : ℚ)) ∧ 1 / (rps : ℚ) < 0) := by
  refine ⟨fun r hr => ?_, fun r hr => ?_, rfl, fun rps hrps => ?_⟩
  · simp [ramp_delay, not_lt.mpr hr]
  · simp [ramp_delay, hr]
  · have h0 : (rps : ℚ) < 0 := by exact_mod_cast hrps
    refine ⟨?_, one_div_neg.mpr h0⟩
    simp [sustained_delay, hrps.ne]

/-- C2 (witness for the amended theorem at concrete rates). -/
theorem C2_delay_guard_amended_witness :
    ramp_delay (-2) = 1 ∧ ramp_delay 4 = 1 / 4 ∧
    sustained_delay (-5) = some (1 / ((-5 : ℤ) : ℚ)) ∧ 1 / (((-5 : ℤ) : ℚ)) < 0 :=
  ⟨C2_delay_guard_amended.1 (-2) (by norm_num),
   C2_delay_guard_amended.2.1 4 (by norm_num),
   (C2_delay_guard_amended.2.2.2 (-5) (by norm_num)).1,
   (C2_delay_guard_amended.2.2.2 (-5) (by norm_num)).2⟩

/-- C4: `send_request` captures every transport failure inside its own
boundary: the result has `success = false`, `status_code = 0`, `error`
set to the failure description, and `end_time ≥ start_time` whenever the
elapsed time between the two clock readings is non-negative. -/
theorem C4_send_request_captures_failures (request_id : ℕ) (env : ReqEnv) (e : String)
    (houtcome : env.outcome = Except.error e) (helapsed : 0 ≤ env.elapsed) :
    (send_request request_id env).success = false ∧
    (send_request request_id env).status_code = 0 ∧
    (send_request request_id env).error = some e ∧
    (send_request request_id env).start_time ≤ (send_request request_id env).end_time := by
  obtain ⟨s, el, st, o⟩ := env
  simp only at houtcome helapsed
  subst houtcome
  refine ⟨rfl, rfl, rfl, ?_⟩
  simp only [send_request]
  linarith

/-- C4 (witness at a concrete timeout failure). -/
theorem C4_send_request_captures_failures_witness :
    (send_request 3 ⟨5, 2, 7, Except.error "TimeoutError"⟩).success = false ∧
    (send_request 3 ⟨5, 2, 7, Except.error "TimeoutError"⟩).status_code = 0 ∧
    (send_request 3 ⟨5, 2, 7, Except.error "TimeoutError"⟩).error = some "TimeoutError" ∧
    (send_request 3 ⟨5, 2, 7, Except.error "TimeoutError"⟩).start_time ≤
      (send_request 3 ⟨5, 2, 7, Except.error "TimeoutError"⟩).end_time :=
  C4_send_request_captures_failures 3 ⟨5, 2, 7, Except.error "TimeoutError"⟩
    "TimeoutError" rfl (by norm_num)

/-- C3: with zero successful requests, both analysis stages return the
explicit no-successful-requests marker instead of computing statistics:
`analyze_results` returns `{"error": "No successful requests"}` on any
non-empty all-failed collection, and `generate_comprehensive_report`
short-circuits with its "No successful requests to analyze" marker. -/
theorem C3_no_success_marker :
    (∀ results : List RequestResult, results ≠ [] →
      (∀ r ∈ results, r.success = false) →
      analyze_results results = AnalyzeOutcome.err "No successful requests") ∧
    (∀ data : List TimingRecord, (∀ d ∈ data, d.success = false) →
      generate_comprehensive_report data = Except.error "No successful requests to analyze") := by
  constructor
  · intro results hne hall
    have hfil : results.filter (fun r => r.success) = [] :=
      List.filter_eq_nil_iff.mpr fun r hr => by simp [hall r hr]
    simp [analyze_results, hne, hfil]
  · intro data hall
    have hfil : data.filter (fun d => d.success) = [] :=
      List.filter_eq_nil_iff.mpr fun d hd => by simp [hall d hd]
    simp [generate_comprehensive_report, hfil]

/-- C3 (witness on concrete all-failed collections). -/
theorem C3_no_success_marker_witness :
    analyze_results [send_request 0 ⟨0, 1, 0, Except.error "x"⟩] =
      AnalyzeOutcome.err "No successful requests" ∧
    generate_comprehensive_report [⟨0, 5, false, "e"⟩] =
      Except.error "No successful requests to analyze" :=
  ⟨C3_no_success_marker.1 _ (by simp) (by intro r hr; simp at hr; subst hr; rfl),
   C3_no_success_marker.2 _ (by intro d hd; simp at hd; subst hd; rfl)⟩

/-- The `request_id` field of a `send_request` result is the id the
request was issued with, on both the reply and the exception branch. -/
theorem send_request_request_id (k : ℕ) (e : ReqEnv) :
    (send_request k e).request_id = k := by
  unfold send_request
  cases e.outcome <;> rfl

/-- The burst issue structure flattens to a single contiguous range:
`n` bursts of `bs` requests with ids `b * bs + i` enumerate `0..n*bs-1`
in order. -/
theorem flatMap_range_burst {α : Type} (n bs : ℕ) (f : ℕ → α) :
    (List.range n).flatMap (fun b => (List.range bs).map fun i => f (b * bs + i)) =
      (List.range (n * bs)).map f := by
  induction n with
  | zero => simp
  | succ n ih =>
    rw [List.range_succ, List.flatMap_append, ih, Nat.succ_mul, List.range_add]
    simp [Function.comp]

/-- C6: `run_burst_test` returns exactly `5 * burst_size` results, and
the result at overall position `k = burst * burst_size + i` carries
`request_id = k`: the results form 5 contiguous groups of `burst_size`,
ordered by burst index then intra-burst request index. -/
theorem C6_run_burst_test_structure (burst_size : ℕ) (env : ℕ → ReqEnv) :
    (run_burst_test burst_size env).length = 5 * burst_size ∧
    ∀ k, k < 5 * burst_size →
      ∃ r, (run_burst_test burst_size env)[k]? = some r ∧ r.request_id = k := by
  have hrw : run_burst_test burst_size env =
      (List.range (5 * burst_size)).map fun j => send_request j (env j) := by
    unfold run_burst_test
    exact flatMap_range_burst 5 burst_size fun j => send_request j (env j)
  constructor
  · simp [hrw]
  · intro k hk
    refine ⟨send_request k (env k), ?_, send_request_request_id k (env k)⟩
    simp [hrw, List.getElem?_map, List.getElem?_range, hk]

/-- C6 (witness: `burst_size = 2` gives 10 results and the result at
position 7 carries `request_id = 7`). -/
theorem C6_run_burst_test_structure_witness :
    (run_burst_test 2 fun _ => ⟨0, 0, 0, Except.error "e"⟩).length = 5 * 2 ∧
    ∃ r, (run_burst_test 2 fun _ => ⟨0, 0, 0, Except.error "e"⟩)[7]? = some r ∧
      r.request_id = 7 :=
  ⟨(C6_run_burst_test_structure 2 _).1, (C6_run_burst_test_structure 2 _).2 7 (by norm_num)⟩

/-- C9: `detect_outliers` returns `[]` for an empty input whatever the
method; on a non-empty input it returns a triple list for the methods
`"zscore"` and `"iqr"` but falls off the end of the function — an
implicit `None` — for every other method string. -/
theorem C9_detect_outliers_method_dispatch (ts : List ℚ) (m : String) (th : ℚ) :
    (ts = [] → detect_outliers ts m th = some []) ∧
    (ts ≠ [] → m ≠ "zscore" → m ≠ "iqr" → detect_outliers ts m th = none) ∧
    ((m = "zscore" ∨ m = "iqr") → ∃ l, detect_outliers ts m th = some l) := by
  refine ⟨fun h => by simp [detect_outliers, h],
          fun h1 h2 h3 => by simp [detect_outliers, h1, h2, h3],
          fun h => ?_⟩
  rcases h with h | h <;> subst h <;> by_cases hts : ts = [] <;>
    simp [detect_outliers, hts]

/-- C9 (witness at concrete inputs for each dispatch case). -/
theorem C9_detect_outliers_method_dispatch_witness :
    detect_outliers [] "other" 2 = some [] ∧
    detect_outliers [1] "other" 2 = none ∧
    ∃ l, detect_outliers [1] "zscore" 2 = some l :=
  ⟨(C9_detect_outliers_method_dispatch [] "other" 2).1 rfl,
   (C9_detect_outliers_method_dispatch [1] "other" 2).2.1 (by simp) (by decide) (by decide),
   (C9_detect_outliers_method_dispatch [1] "zscore" 2).2.2 (Or.inl rfl)⟩

/-- C10: the two aggregators use different standard deviations:
`calculate_statistics` divides by `n` (population formula, hence `0` on a
single element) while `analyze_results` uses the sample formula over
`n - 1` with an explicit `0` for `n < 2`; on `[0, 2]` they report
`1` versus `√2`, and coefficients of variation `1` versus `√2`. -/
theorem C10_std_dev_formulas_differ :
    (∀ x : ℚ, calc_std_dev [x] = 0) ∧
    (∀ xs : List ℚ, xs.length < 2 → analyze_std_dev xs = 0) ∧
    (∃ xs : List ℚ, 2 ≤ xs.length ∧ (∃ a ∈ xs, ∃ b ∈ xs, a ≠ b) ∧
      calc_std_dev xs ≠ analyze_std_dev xs ∧ calc_cv xs ≠ analyze_cv xs) := by
  have hpop : population_variance [0, 2] = 1 := by
    norm_num [population_variance]
  have hsamp : sample_variance [0, 2] = 2 := by
    norm_num [sample_variance]
  have hcs : calc_std_dev [0, 2] = 1 := by
    rw [calc_std_dev, hpop]
    push_cast
    exact Real.sqrt_one
  have has : analyze_std_dev [0, 2] = Real.sqrt 2 := by
    rw [analyze_std_dev, if_pos (by norm_num), hsamp]
    norm_num
  have hne2 : (1 : ℝ) ≠ Real.sqrt 2 := by
    intro hEq
    have h2 : (2 : ℝ) = 1 := Real.sqrt_eq_one.mp hEq.symm
    norm_num at h2
  refine ⟨fun x => ?_, fun xs h => ?_,
    ⟨[0, 2], by norm_num, ⟨0, by simp, 2, by simp, by norm_num⟩, ?_, ?_⟩⟩
  · have hv : population_variance [x] = 0 := by
      simp [population_variance]
    rw [calc_std_dev, hv]
    norm_num
  · rw [analyze_std_dev, if_neg (by omega)]
  · rw [hcs, has]
    exact hne2
  · have hmean : (([0, 2] : List ℚ).sum / (([0, 2] : List ℚ).length : ℚ)) = 1 := by
      norm_num
    rw [calc_cv, analyze_cv, hmean, if_pos (by norm_num), hcs, has]
    push_cast
    simpa using hne2

/-- C10 (witness for the universally quantified degenerate cases). -/
theorem C10_std_dev_formulas_differ_witness :
    calc_std_dev [(5 : ℚ)] = 0 ∧ analyze_std_dev [(3 : ℚ)] = 0 :=
  ⟨C10_std_dev_formulas_differ.1 5, C10_std_dev_formulas_differ.2.1 [3] (by norm_num)⟩

/-- Closed form for the sum of a quadratic polynomial over `0..n-1`. -/
theorem sum_range_poly (a b c : ℚ) (n : ℕ) :
    (((List.range n).map fun i : ℕ => a + b * (i : ℚ) + c * (i : ℚ) ^ 2).sum) =
      a * n + b * ((n : ℚ) * ((n : ℚ) - 1) / 2) +
        c * ((n : ℚ) * ((n : ℚ) - 1) * (2 * (n : ℚ) - 1) / 6) := by
  induction n with
  | zero => norm_num
  | succ n ih =>
    rw [List.range_succ, List.map_append, List.sum_append, ih]
    push_cast
    simp only [List.map_cons, List.map_nil, List.sum_cons, List.sum_nil]
    ring

/-- The ordinary-least-squares slope computed by `trend_slope` on exactly
affine data `y_i = a + b * i` over positions `0..n-1` is exactly `b`
whenever `n ≥ 2`. -/
theorem trend_slope_affine (a b : ℚ) (n : ℕ) (hn : 2 ≤ n) :
    trend_slope ((List.range n).map fun i : ℕ => a + b * (i : ℚ)) = b := by
  have hlen : ((List.range n).map fun i : ℕ => a + b * (i : ℚ)).length = n := by simp
  have e1 : ((List.range n).map fun i : ℕ => (i : ℚ)).sum = (n : ℚ) * ((n : ℚ) - 1) / 2 := by
    simpa using sum_range_poly 0 1 0 n
  have e2 : ((List.range n).map fun i : ℕ => a + b * (i : ℚ)).sum =
      a * n + b * ((n : ℚ) * ((n : ℚ) - 1) / 2) := by
    simpa using sum_range_poly a b 0 n
  have e3 : (List.zipWith (· * ·) ((List.range n).map fun i : ℕ => (i : ℚ))
        ((List.range n).map fun i : ℕ => a + b * (i : ℚ))).sum =
      a * ((n : ℚ) * ((n : ℚ) - 1) / 2) +
        b * ((n : ℚ) * ((n : ℚ) - 1) * (2 * (n : ℚ) - 1) / 6) := by
    rw [List.zipWith_map, List.zipWith_same]
    have hmap : ((List.range n).map fun i : ℕ => (i : ℚ) * (a + b * (i : ℚ))) =
        (List.range n).map fun i : ℕ => 0 + a * (i : ℚ) + b * (i : ℚ) ^ 2 :=
      List.map_congr_left fun i _ => by ring
    rw [hmap]
    simpa using sum_range_poly 0 a b n
  have e4 : (((List.range n).map fun i : ℕ => (i : ℚ)).map fun xi => xi * xi).sum =
      (n : ℚ) * ((n : ℚ) - 1) * (2 * (n : ℚ) - 1) / 6 := by
    rw [List.map_map]
    have hmap : ((List.range n).map fun i => ((fun xi => xi * xi) ∘ fun i => ((i : ℕ) : ℚ)) i) =
        (List.range n).map fun i : ℕ => 0 + 0 * (i : ℚ) + 1 * (i : ℚ) ^ 2 :=
      List.map_congr_left fun i _ => by simp [Function.comp]; ring
    rw [hmap]
    simpa using sum_range_poly 0 0 1 n
  have h2 : (2 : ℚ) ≤ (n : ℚ) := by exact_mod_cast hn
  have hD : (n : ℚ) * ((n : ℚ) * ((n : ℚ) - 1) * (2 * (n : ℚ) - 1) / 6) -
      ((n : ℚ) * ((n : ℚ) - 1) / 2) * ((n : ℚ) * ((n : ℚ) - 1) / 2) ≠ 0 := by
    have hform : (n : ℚ) * ((n : ℚ) * ((n : ℚ) - 1) * (2 * (n : ℚ) - 1) / 6) -
        ((n : ℚ) * ((n : ℚ) - 1) / 2) * ((n : ℚ) * ((n : ℚ) - 1) / 2) =
        (n : ℚ) ^ 2 * ((n : ℚ) - 1) * ((n : ℚ) + 1) / 12 := by ring
    rw [hform]
    have hn0 : (0 : ℚ) < (n : ℚ) := by linarith
    have hn1 : (0 : ℚ) < (n : ℚ) - 1 := by linarith
    have hn2 : (0 : ℚ) < (n : ℚ) + 1 := by linarith
    have : (0 : ℚ) < (n : ℚ) ^ 2 * ((n : ℚ) - 1) * ((n : ℚ) + 1) / 12 := by
      apply div_pos
      · exact mul_pos (mul_pos (pow_pos hn0 2) hn1) hn2
      · norm_num
    exact ne_of_gt this
  simp only [trend_slope, hlen]
  rw [e1, e2, e3, e4, div_eq_iff hD]
  ring

/-- C7: `analyze_trend` reports `insufficient_data` on fewer than 10
points; on the synthetic dataset `[100, 110, ..., 100 + 10*(n-1)]` with
`n ≥ 10` the closed-form least-squares slope is exactly `10`, above the
`0.1` threshold, so the label is `increasing`. -/
theorem C7_analyze_trend_correct :
    (∀ data : List ℚ, data.length < 10 → analyze_trend data = "insufficient_data") ∧
    (∀ n : ℕ, 10 ≤ n →
      trend_slope (trend_test_data n) = 10 ∧
      analyze_trend (trend_test_data n) = "increasing") := by
  constructor
  · intro data h
    simp [analyze_trend, h]
  · intro n hn
    have hlen : (trend_test_data n).length = n := by simp [trend_test_data]
    have hslope : trend_slope (trend_test_data n) = 10 :=
      trend_slope_affine 100 10 n (by omega)
    refine ⟨hslope, ?_⟩
    rw [analyze_trend, if_neg (by omega), if_pos (by rw [hslope]; norm_num)]

/-- C7 (witness: a 9-point list is insufficient; the 10-point synthetic
dataset has slope exactly 10 and is labelled increasing). -/
theorem C7_analyze_trend_correct_witness :
    analyze_trend [1, 2, 3, 4, 5, 6, 7, 8, 9] = "insufficient_data" ∧
    trend_slope (trend_test_data 10) = 10 ∧
    analyze_trend (trend_test_data 10) = "increasing" :=
  ⟨C7_analyze_trend_correct.1 _ (by norm_num),
   (C7_analyze_trend_correct.2 10 (by norm_num)).1,
   (C7_analyze_trend_correct.2 10 (by norm_num)).2⟩

/-- In a list sorted non-decreasingly, entries at smaller indices are at
most entries at larger (in-range) indices. -/
theorem getD_le_getD_of_sorted (d : List ℚ) (hs : d.Sorted (· ≤ ·)) {i j : ℕ}
    (hij : i ≤ j) (hj : j < d.length) : d.getD i 0 ≤ d.getD j 0 := by
  have hi : i < d.length := lt_of_le_of_lt hij hj
  rw [List.getD_eq_getElem d 0 hi, List.getD_eq_getElem d 0 hj]
  have := hs.rel_get_of_le (a := ⟨i, hi⟩) (b := ⟨j, hj⟩) (Fin.mk_le_mk.mpr hij)
  simpa using this

/-- `data[-1]` in Python (`getLastD`) is the entry at index `length - 1`. -/
theorem getLastD_eq_getD (d : List ℚ) : d.getLastD 0 = d.getD (d.length - 1) 0 := by
  rw [List.getLastD_eq_getLast?, List.getLast?_eq_getElem?, List.getD_eq_getElem?_getD]

/-- Python `int()` agrees with `Int.floor` on non-negative arguments. -/
theorem pyTrunc_eq_floor {x : ℚ} (hx : 0 ≤ x) : pyTrunc x = ⌊x⌋ := by
  simp [pyTrunc, not_lt.mpr hx]

/-- `percentile` is `interpAt` at the fractional index
`(len - 1) * p / 100` whenever `p ≥ 0` on a non-empty list. -/
theorem percentile_eq_interpAt (d : List ℚ) (p : ℚ) (hne : d ≠ []) (hp : 0 ≤ p) :
    percentile d p = interpAt d (((d.length : ℚ) - 1) * p / 100) := by
  have hn1 : 1 ≤ d.length := List.length_pos.mpr hne
  have h1 : (1 : ℚ) ≤ (d.length : ℚ) := by exact_mod_cast hn1
  have hidx : 0 ≤ ((d.length : ℚ) - 1) * p / 100 := by
    apply div_nonneg _ (by norm_num)
    exact mul_nonneg (by linarith) hp
  simp only [percentile, interpAt, pyTrunc_eq_floor hidx]

/-- The interpolation core of `percentile` is monotone in the fractional
index over a sorted list. -/
theorem interpAt_mono (d : List ℚ) (hne : d ≠ []) (hs : d.Sorted (· ≤ ·))
    {x y : ℚ} (hx : 0 ≤ x) (hxy : x ≤ y) : interpAt d x ≤ interpAt d y := by
  have hn1 : 1 ≤ d.length := List.length_pos.mpr hne
  have hlx0 : (0 : ℤ) ≤ ⌊x⌋ := Int.floor_nonneg.mpr hx
  have hlxy : ⌊x⌋ ≤ ⌊y⌋ := Int.floor_le_floor hxy
  have hxfl : (⌊x⌋ : ℚ) ≤ x := Int.floor_le x
  have hxfu : x < ⌊x⌋ + 1 := Int.lt_floor_add_one x
  have hyfl : (⌊y⌋ : ℚ) ≤ y := Int.floor_le y
  have hyfu : y < ⌊y⌋ + 1 := Int.lt_floor_add_one y
  unfold interpAt
  by_cases hcx : (d.length : ℤ) ≤ ⌊x⌋ + 1
  · have hcy : (d.length : ℤ) ≤ ⌊y⌋ + 1 := by omega
    rw [if_pos hcx, if_pos hcy]
  · have hxin : ⌊x⌋.toNat + 1 < d.length := by omega
    have hxsucc : (⌊x⌋ + 1).toNat = ⌊x⌋.toNat + 1 := by omega
    have hwx0 : 0 ≤ x - (⌊x⌋ : ℚ) := by linarith
    have hwx1 : x - (⌊x⌋ : ℚ) ≤ 1 := by
      have : (x : ℚ) < (⌊x⌋ : ℚ) + 1 := by exact_mod_cast hxfu
      linarith
    have hstep : d.getD ⌊x⌋.toNat 0 ≤ d.getD (⌊x⌋.toNat + 1) 0 :=
      getD_le_getD_of_sorted d hs (Nat.le_succ _) hxin
    by_cases hcy : (d.length : ℤ) ≤ ⌊y⌋ + 1
    · -- `y` clamps to the last element; every interpolated value is below it.
      rw [if_neg hcx, if_pos hcy, getLastD_eq_getD]
      have h1 : d.getD ⌊x⌋.toNat 0 ≤ d.getD (d.length - 1) 0 :=
        getD_le_getD_of_sorted d hs (by omega) (by omega)
      have h2 : d.getD (⌊x⌋ + 1).toNat 0 ≤ d.getD (d.length - 1) 0 := by
        rw [hxsucc]
        exact getD_le_getD_of_sorted d hs (by omega) (by omega)
      nlinarith [mul_nonneg (sub_nonneg.mpr h1) (by linarith : (0:ℚ) ≤ 1 - (x - (⌊x⌋ : ℚ))),
        mul_nonneg (sub_nonneg.mpr h2) hwx0]
    · rw [if_neg hcx, if_neg hcy]
      have hyin : ⌊y⌋.toNat + 1 < d.length := by omega
      have hysucc : (⌊y⌋ + 1).toNat = ⌊y⌋.toNat + 1 := by omega
      have hwy0 : 0 ≤ y - (⌊y⌋ : ℚ) := by linarith
      have hstepy : d.getD ⌊y⌋.toNat 0 ≤ d.getD (⌊y⌋.toNat + 1) 0 :=
        getD_le_getD_of_sorted d hs (Nat.le_succ _) hyin
      rcases eq_or_lt_of_le hlxy with heq | hlt
      · -- same interpolation cell: linear in the weight with slope ≥ 0
        rw [← heq]
        have hw : x - (⌊x⌋ : ℚ) ≤ y - (⌊x⌋ : ℚ) := by linarith
        rw [hxsucc]
        nlinarith [mul_nonneg (sub_nonneg.mpr hstep) (sub_nonneg.mpr hw)]
      · -- different cells: go through the order statistics between them
        have hmid : d.getD (⌊x⌋.toNat + 1) 0 ≤ d.getD ⌊y⌋.toNat 0 :=
          getD_le_getD_of_sorted d hs (by omega) (by omega)
        have hxi : d.getD ⌊x⌋.toNat 0 * (1 - (x - (⌊x⌋ : ℚ))) +
            d.getD (⌊x⌋ + 1).toNat 0 * (x - (⌊x⌋ : ℚ)) ≤ d.getD (⌊x⌋.toNat + 1) 0 := by
          rw [hxsucc]
          nlinarith [mul_nonneg (sub_nonneg.mpr hstep) (by linarith : (0:ℚ) ≤ 1 - (x - (⌊x⌋ : ℚ)))]
        have hyi : d.getD ⌊y⌋.toNat 0 ≤ d.getD ⌊y⌋.toNat 0 * (1 - (y - (⌊y⌋ : ℚ))) +
            d.getD (⌊y⌋ + 1).toNat 0 * (y - (⌊y⌋ : ℚ)) := by
          rw [hysucc]
          nlinarith [mul_nonneg (sub_nonneg.mpr hstepy) hwy0]
        linarith

/-- C5: on every non-empty sorted dataset the `percentile` function —
linear interpolation between the order statistics at `floor(idx)` and
`floor(idx) + 1` for `idx = (n-1)p/100`, clamped to the last element on
overflow — is monotone in `p` over `[0, 100]`; in particular
`percentile(data, 25) ≤ percentile(data, 75)`. -/
theorem C5_percentile_monotone (d : List ℚ) (hne : d ≠ []) (hs : d.Sorted (· ≤ ·))
    (p q : ℚ) (hp : 0 ≤ p) (hq : q ≤ 100) (hpq : p ≤ q) :
    percentile d p ≤ percentile d q := by
  have hn1 : 1 ≤ d.length := List.length_pos.mpr hne
  have h1 : (1 : ℚ) ≤ (d.length : ℚ) := by exact_mod_cast hn1
  have hnn : (0 : ℚ) ≤ (d.length : ℚ) - 1 := by linarith
  rw [percentile_eq_interpAt d p hne hp, percentile_eq_interpAt d q hne (le_trans hp hpq)]
  apply interpAt_mono d hne hs
  · exact div_nonneg (mul_nonneg hnn hp) (by norm_num)
  · have hmul : ((d.length : ℚ) - 1) * p ≤ ((d.length : ℚ) - 1) * q :=
      mul_le_mul_of_nonneg_left hpq hnn
    linarith

/-- C5 (witness: quartiles of a concrete sorted dataset). -/
theorem C5_percentile_monotone_witness :
    percentile [1, 2, 4] 25 ≤ percentile [1, 2, 4] 75 :=
  C5_percentile_monotone [1, 2, 4] (by simp) (by decide) 25 75
    (by norm_num) (by norm_num) (by norm_num)

/-- The consistency tier of `categorize_performance` as a single nested
conditional on `cv`. -/
theorem categorize_consistency_eq (cv t : ℚ) :
    (categorize_performance cv t).1 =
      if cv < 0.1 then "Excellent" else if cv < 0.25 then "Good"
      else if cv < 0.5 then "Fair" else "Poor" := by
  unfold categorize_performance
  split_ifs <;> rfl

/-- The speed tier of `categorize_performance` as a single nested
conditional on the mean time. -/
theorem categorize_speed_eq (cv t : ℚ) :
    (categorize_performance cv t).2.2 =
      if t < 500 then "Fast" else if t < 1000 then "Moderate"
      else if t < 2000 then "Slow" else "Very Slow" := by
  unfold categorize_performance
  split_ifs <;> rfl

set_option maxHeartbeats 1000000 in
/-- C8: `categorize_performance` is a pure deterministic mapping whose
consistency tier partitions `cv` at `0.1 / 0.25 / 0.5` and whose speed
tier partitions the mean at `500 / 1000 / 2000`; in particular
`(cv = 0.05, mean = 300)` maps to `(Excellent, Fast)` and
`(cv = 0.6, mean = 2500)` maps to `(Poor, Very Slow)`. -/
theorem C8_categorize_performance_tiers :
    (∀ cv avg_time : ℚ,
      ((categorize_performance cv avg_time).1 = "Excellent" ↔ cv < 0.1) ∧
      ((categorize_performance cv avg_time).1 = "Good" ↔ 0.1 ≤ cv ∧ cv < 0.25) ∧
      ((categorize_performance cv avg_time).1 = "Fair" ↔ 0.25 ≤ cv ∧ cv < 0.5) ∧
      ((categorize_performance cv avg_time).1 = "Poor" ↔ 0.5 ≤ cv) ∧
      ((categorize_performance cv avg_time).2.2 = "Fast" ↔ avg_time < 500) ∧
      ((categorize_performance cv avg_time).2.2 = "Moderate" ↔
        500 ≤ avg_time ∧ avg_time < 1000) ∧
      ((categorize_performance cv avg_time).2.2 = "Slow" ↔
        1000 ≤ avg_time ∧ avg_time < 2000) ∧
      ((categorize_performance cv avg_time).2.2 = "Very Slow" ↔ 2000 ≤ avg_time)) ∧
    (categorize_performance 0.05 300).1 = "Excellent" ∧
    (categorize_performance 0.05 300).2.2 = "Fast" ∧
    (categorize_performance 0.6 2500).1 = "Poor" ∧
    (categorize_performance 0.6 2500).2.2 = "Very Slow" := by
  refine ⟨fun cv avg_time => ?_, by norm_num [categorize_performance],
    by norm_num [categorize_performance], by norm_num [categorize_performance],
    by norm_num [categorize_performance]⟩
  rw [categorize_consistency_eq, categorize_speed_eq]
  split_ifs with h1 h2 h3 h4 h5 h6 <;>
    refine ⟨?_, ?_, ?_, ?_, ?_, ?_, ?_, ?_⟩ <;>
    simp <;>
    first
      | linarith
      | (constructor <;> linarith)
      | (intro h; linarith)

end Anoverif
